import Mathlib

/-!
Verification development for the push-new-stock-everyday repository.

The repository is a once-daily notifier: it fetches new-stock subscription
and new-listing tables from an upstream provider (AkShare), normalizes them
by heuristic column-keyword matching, filters to a target date, and pushes a
formatted message through a webhook, guarded by a per-day file-based push
flag.  `src/stock_data.py` holds the resilient fetcher, the trading-day
check, the schema normalizer with lookback resolver and the flag ledger;
`src/main.py` holds an alternative revision of the orchestration (its own
weekday-only trading-day check, the push functions, and the `main` entry
point) together with its own flag ledger.

Embedding conventions:
* A pandas DataFrame is a `RawTable`: a list of column names plus rows of
  cells aligned with those columns; a cell is `Option String`, `none`
  standing for null/NaN.
* `strftime` date rendering is abstracted by function parameters
  (`dayKey` for `%Y%m%d`, `dayStr` for `%Y-%m-%d`); dates themselves are
  day numbers (`Nat`, larger = later) with `weekday d = d % 7` and day 0 a
  Monday, matching Python's `date.weekday()` (0 = Monday .. 6 = Sunday).
* `pd.to_datetime` coercion of a single cell is abstracted by a
  `parse : String → Option String` parameter; a `none` cell stays `none`
  (NaT), and a cell on which `parse` fails makes the whole column
  conversion fail, as the pandas call raises.
* Effectful upstream calls are oracles indexed by call position
  (`Nat → Except String RawTable` and similar); the filesystem backing the
  flag ledger is the list of existing flag-file paths.
-/

namespace PushStock

/-- Substring test on character lists: Python's `needle in hay`. -/
def subOf (needle : List Char) : List Char → Bool
  | [] => needle.isEmpty
  | c :: t => needle.isPrefixOf (c :: t) || subOf needle t

/-- Python's `needle in hay` on strings. -/
def strContains (hay needle : String) : Bool :=
  subOf needle.data hay.data

/-- Python's `str.lower()` (identity on CJK characters, ASCII lowering). -/
def lowerStr (s : String) : String :=
  ⟨s.data.map Char.toLower⟩

/-- Day-of-week of a day number, with day 0 a Monday: Python `date.weekday()`,
0 = Monday .. 6 = Sunday. -/
def weekday (d : Nat) : Nat := d % 7

namespace StockData

/-- A raw upstream table (pandas DataFrame): named columns and rows of cells
aligned with the column list; a `none` cell is null/NaN. -/
structure RawTable where
  cols : List String
  rows : List (List (Option String))
deriving DecidableEq

/-- Trace of `akshare_retry` from src/stock_data.py: the final result, the
number of invocations of the wrapped operation, and the waits (milliseconds)
inserted between attempts. -/
structure RetryTrace (α : Type) where
  result : Except String α
  attempts : Nat
  delays : List Nat

/-- The `@retry(stop_max_attempt_number=3, wait_fixed=2000)`-decorated
`akshare_retry` of src/stock_data.py lines 21-29: call the zero-argument
upstream operation; on an exception wait 2000 ms and retry, for at most 3
attempts in total; after the third failure re-raise the last exception.
The operation is an oracle indexed by attempt number. -/
def akshare_retry (op : Nat → Except String α) : RetryTrace α :=
  match op 0 with
  | .ok v => ⟨.ok v, 1, []⟩
  | .error _ =>
    match op 1 with
    | .ok v => ⟨.ok v, 2, [2000]⟩
    | .error _ =>
      match op 2 with
      | .ok v => ⟨.ok v, 3, [2000, 2000]⟩
      | .error e => ⟨.error e, 3, [2000, 2000]⟩

/-- The calendar-based `is_trading_day` of src/stock_data.py lines 38-62.
The calendar query result is an oracle: `.error ()` when
`ak.tool_trade_date_hist_sina()` (or the subsequent parsing) raises, and
`.ok entries` with `(trade_date, is_open)` pairs on success.  On success the
code filters the entries to the target date and returns
`len(open_status) > 0 and open_status[0] == 1`; on failure it falls back to
`date.weekday() < 5`. -/
def is_trading_day (cal : Except Unit (List (Nat × Int))) (date : Nat) : Bool :=
  match cal with
  | .ok entries =>
    match (entries.filter (fun e => e.1 == date)).map (fun e => e.2) with
    | [] => false
    | v :: _ => v == 1
  | .error _ => decide (weekday date < 5)

/-- Subscription date-column keyword match of src/stock_data.py line 131-135:
`any(kw in col.lower() for kw in ["申购日期", "ipo_date", "issue_date"])`. -/
def isSubDateCol (c : String) : Bool :=
  ["申购日期", "ipo_date", "issue_date"].any (fun kw => strContains (lowerStr c) kw)

/-- Listing date-column keyword match of src/stock_data.py line 226-229:
`any(kw in col.lower() for kw in ["上市日期", "listing_date"])`. -/
def isListDateCol (c : String) : Bool :=
  ["上市日期", "listing_date"].any (fun kw => strContains (lowerStr c) kw)

/-- Code-column keyword match: `"代码" in col or "code" in col.lower()`. -/
def isCodeCol (c : String) : Bool :=
  strContains c "代码" || strContains (lowerStr c) "code"

/-- Name-column keyword match:
`"名称" in col or "简称" in col or "name" in col.lower()`. -/
def isNameCol (c : String) : Bool :=
  strContains c "名称" || strContains c "简称" || strContains (lowerStr c) "name"

/-- Price-column keyword match: `"价格" in col or "price" in col.lower()`. -/
def isPriceCol (c : String) : Bool :=
  strContains c "价格" || strContains (lowerStr c) "price"

/-- Cap-column keyword match: `"上限" in col or "limit" in col.lower()`. -/
def isLimitCol (c : String) : Bool :=
  strContains c "上限" || strContains (lowerStr c) "limit"

/-- Python `next((col for col in raw_df.columns if p col), None)`. -/
def findCol (p : String → Bool) (t : RawTable) : Option String :=
  t.cols.find? p

/-- Cell of row `r` in the column named `c` of table `t` (first matching
column name, the pandas column lookup). -/
def getCell (t : RawTable) (r : List (Option String)) (c : String) : Option String :=
  match t.cols.findIdx? (fun x => x == c) with
  | some i => (r[i]?).getD none
  | none => none

/-- Overwrite the cell of row `r` in the column named `c` of table `t`
(the in-place column assignment `raw_df[date_col] = ...`). -/
def setCell (t : RawTable) (r : List (Option String)) (c : String)
    (v : Option String) : List (Option String) :=
  match t.cols.findIdx? (fun x => x == c) with
  | some i => r.set i v
  | none => r

/-- Coerce the date cell of one row: a null cell stays null (NaT); a cell
whose text `parse` rejects makes the whole conversion raise, modelled by
`none` for the row. -/
def coerceRow (parse : String → Option String) (t : RawTable) (dcol : String)
    (r : List (Option String)) : Option (List (Option String)) :=
  match getCell t r dcol with
  | none => some r
  | some s => (parse s).map (fun v => setCell t r dcol (some v))

/-- The column-wide `pd.to_datetime(raw_df[date_col]).dt.strftime("%Y-%m-%d")`
call: every row's date cell is coerced, and a single failure fails the whole
conversion (the pandas call raises). -/
def coerceRows (parse : String → Option String) (t : RawTable) (dcol : String) :
    Option (List (List (Option String))) :=
  t.rows.mapM (coerceRow parse t dcol)

/-- A row of the normalized subscription result table
(columns 股票代码/股票简称/发行价格/申购上限/申购日期/类型). -/
structure SubRow where
  code : Option String
  name : Option String
  price : Option String
  cap : Option String
  subDate : Option String
  kind : Option String
deriving DecidableEq

/-- A row of the normalized listing result table
(columns 股票代码/股票简称/发行价格/上市日期/类型). -/
structure ListRow where
  code : Option String
  name : Option String
  price : Option String
  listDate : Option String
  kind : Option String
deriving DecidableEq

/-- `check_new_stock_completeness` of src/stock_data.py lines 68-79: every
required column exists (always true for the constructed result table) and is
not entirely null, i.e. holds at least one non-null cell. -/
def check_new_stock_completeness (rows : List SubRow) : Bool :=
  rows.any (fun r => r.code.isSome) && rows.any (fun r => r.name.isSome) &&
  rows.any (fun r => r.price.isSome) && rows.any (fun r => r.cap.isSome) &&
  rows.any (fun r => r.subDate.isSome)

/-- `check_new_listing_completeness` of src/stock_data.py lines 82-92. -/
def check_new_listing_completeness (rows : List ListRow) : Bool :=
  rows.any (fun r => r.code.isSome) && rows.any (fun r => r.name.isSome) &&
  rows.any (fun r => r.price.isSome) && rows.any (fun r => r.listDate.isSome)

/-- Projection of one filtered raw row into the normalized subscription
schema (src/stock_data.py lines 166-173): code and name from their matched
columns, price and cap from theirs when matched, 未知 otherwise, the
candidate date stamp and the constant kind tag. -/
def mkSubRow (raw : RawTable) (dateStr ccol ncol : String)
    (pcol lcol : Option String) (r : List (Option String)) : SubRow :=
  { code := getCell raw r ccol
    name := getCell raw r ncol
    price := match pcol with
      | some c => getCell raw r c
      | none => some "未知"
    cap := match lcol with
      | some c => getCell raw r c
      | none => some "未知"
    subDate := some dateStr
    kind := some "股票" }

/-- The normalized subscription result table built from the filtered rows. -/
def mkSubRows (raw : RawTable) (dateStr ccol ncol : String)
    (pcol lcol : Option String) (target : List (List (Option String))) :
    List SubRow :=
  target.map (mkSubRow raw dateStr ccol ncol pcol lcol)

/-- One loop body of `get_new_stock_subscriptions` (src/stock_data.py lines
120-183) applied to an already-fetched raw table and the candidate date
string: the per-candidate normalization.  `none` means the candidate is
skipped (`continue`): empty table, missing date column, date-coercion
failure, no row for the target date, missing code/name column, or failed
completeness check. -/
def processSubCandidate (parse : String → Option String) (raw : RawTable)
    (dateStr : String) : Option (List SubRow) :=
  if raw.rows.isEmpty then none else
  match findCol isSubDateCol raw with
  | none => none
  | some dcol =>
    match coerceRows parse raw dcol with
    | none => none
    | some rows1 =>
      if (rows1.filter (fun r => getCell raw r dcol == some dateStr)).isEmpty
      then none else
      match findCol isCodeCol raw with
      | none => none
      | some ccol =>
        match findCol isNameCol raw with
        | none => none
        | some ncol =>
          if check_new_stock_completeness
              (mkSubRows raw dateStr ccol ncol (findCol isPriceCol raw)
                (findCol isLimitCol raw)
                (rows1.filter (fun r => getCell raw r dcol == some dateStr)))
          then some (mkSubRows raw dateStr ccol ncol (findCol isPriceCol raw)
                (findCol isLimitCol raw)
                (rows1.filter (fun r => getCell raw r dcol == some dateStr)))
          else none

/-- Projection of one filtered raw row into the normalized listing schema
(src/stock_data.py lines 259-264). -/
def mkListRow (raw : RawTable) (dateStr ccol ncol : String)
    (pcol : Option String) (r : List (Option String)) : ListRow :=
  { code := getCell raw r ccol
    name := getCell raw r ncol
    price := match pcol with
      | some c => getCell raw r c
      | none => some "未知"
    listDate := some dateStr
    kind := some "股票" }

/-- The normalized listing result table built from the filtered rows. -/
def mkListRows (raw : RawTable) (dateStr ccol ncol : String)
    (pcol : Option String) (target : List (List (Option String))) :
    List ListRow :=
  target.map (mkListRow raw dateStr ccol ncol pcol)

/-- One loop body of `get_new_stock_listings` (src/stock_data.py lines
217-274): the per-candidate normalization for the listing feed. -/
def processListCandidate (parse : String → Option String) (raw : RawTable)
    (dateStr : String) : Option (List ListRow) :=
  if raw.rows.isEmpty then none else
  match findCol isListDateCol raw with
  | none => none
  | some dcol =>
    match coerceRows parse raw dcol with
    | none => none
    | some rows1 =>
      if (rows1.filter (fun r => getCell raw r dcol == some dateStr)).isEmpty
      then none else
      match findCol isCodeCol raw with
      | none => none
      | some ccol =>
        match findCol isNameCol raw with
        | none => none
        | some ncol =>
          if check_new_listing_completeness
              (mkListRows raw dateStr ccol ncol (findCol isPriceCol raw)
                (rows1.filter (fun r => getCell raw r dcol == some dateStr)))
          then some (mkListRows raw dateStr ccol ncol (findCol isPriceCol raw)
                (rows1.filter (fun r => getCell raw r dcol == some dateStr)))
          else none

/-- Candidate date list of the lookback resolver (src/stock_data.py lines
109-112 and 206-209): 22 trailing days in diagnostic (test) mode, today only
in production mode. -/
def candidateDates (testMode : Bool) (today : Nat) : List Nat :=
  if testMode then (List.range 22).map (fun i => today - i) else [today]

/-- The candidate loop of `get_new_stock_subscriptions`: iterate the
candidate dates in order; for each, query the (already retry-wrapped) fetch
oracle at the current call position; a fetch exception or a skipped
candidate continues with the next date; the first candidate whose
normalization succeeds is returned; exhaustion returns the empty table. -/
def scanSub (parse : String → Option String) (fetch : Nat → Except String RawTable)
    (dayStr : Nat → String) : List Nat → Nat → List SubRow
  | [], _ => []
  | d :: ds, k =>
    match fetch k with
    | .error _ => scanSub parse fetch dayStr ds (k + 1)
    | .ok raw =>
      match processSubCandidate parse raw (dayStr d) with
      | some r => r
      | none => scanSub parse fetch dayStr ds (k + 1)

/-- The candidate loop of `get_new_stock_listings`. -/
def scanList (parse : String → Option String) (fetch : Nat → Except String RawTable)
    (dayStr : Nat → String) : List Nat → Nat → List ListRow
  | [], _ => []
  | d :: ds, k =>
    match fetch k with
    | .error _ => scanList parse fetch dayStr ds (k + 1)
    | .ok raw =>
      match processListCandidate parse raw (dayStr d) with
      | some r => r
      | none => scanList parse fetch dayStr ds (k + 1)

/-- `get_new_stock_subscriptions` of src/stock_data.py lines 98-192.
`dayStr` abstracts `strftime("%Y-%m-%d")` on a day number. -/
def get_new_stock_subscriptions (parse : String → Option String)
    (fetch : Nat → Except String RawTable) (dayStr : Nat → String)
    (testMode : Bool) (today : Nat) : List SubRow :=
  scanSub parse fetch dayStr (candidateDates testMode today) 0

/-- `get_new_stock_listings` of src/stock_data.py lines 195-282. -/
def get_new_stock_listings (parse : String → Option String)
    (fetch : Nat → Except String RawTable) (dayStr : Nat → String)
    (testMode : Bool) (today : Nat) : List ListRow :=
  scanList parse fetch dayStr (candidateDates testMode today) 0

/-- Flag-file path of the subscription push flag in src/stock_data.py line
294-296; `dayKey` abstracts `date.strftime("%Y%m%d")`. -/
def new_stock_flag_path (dayKey : Nat → String) (d : Nat) : String :=
  "data/flags/new_stock_pushed_" ++ dayKey d ++ ".txt"

/-- `read_new_stock_pushed_flag` of src/stock_data.py lines 288-297: derive
the path and test existence against the filesystem `fs` (list of existing
paths). -/
def read_new_stock_pushed_flag (dayKey : Nat → String) (d : Nat)
    (fs : List String) : String × Bool :=
  (new_stock_flag_path dayKey d, fs.contains (new_stock_flag_path dayKey d))

/-- `mark_new_stock_info_pushed` of src/stock_data.py lines 300-308: derive
today's path (the same `%Y%m%d` key), write the flag file, return the path
and the new filesystem. -/
def mark_new_stock_info_pushed (dayKey : Nat → String) (today : Nat)
    (fs : List String) : String × List String :=
  (new_stock_flag_path dayKey today, new_stock_flag_path dayKey today :: fs)

/-- Flag-file path of the listing push flag in src/stock_data.py line 315. -/
def listing_flag_path (dayKey : Nat → String) (d : Nat) : String :=
  "data/flags/listing_pushed_" ++ dayKey d ++ ".txt"

/-- `read_listing_pushed_flag` of src/stock_data.py lines 311-316. -/
def read_listing_pushed_flag (dayKey : Nat → String) (d : Nat)
    (fs : List String) : String × Bool :=
  (listing_flag_path dayKey d, fs.contains (listing_flag_path dayKey d))

/-- `mark_listing_info_pushed` of src/stock_data.py lines 319-327. -/
def mark_listing_info_pushed (dayKey : Nat → String) (today : Nat)
    (fs : List String) : String × List String :=
  (listing_flag_path dayKey today, listing_flag_path dayKey today :: fs)

end StockData

namespace Main

/-- The weekday-only `is_trading_day` of src/main.py lines 22-27: the
weekday of today is between 0 (Monday) and 4 (Friday).  The external
trading calendar is never consulted by this revision. -/
def is_trading_day (today : Nat) : Bool :=
  decide (weekday today ≤ 4)

/-- Flag-file path of the subscription push flag in src/main.py line 147. -/
def new_stock_flag_path (dayKey : Nat → String) (d : Nat) : String :=
  "data/new_stock_pushed_" ++ dayKey d ++ ".txt"

/-- `read_new_stock_pushed_flag` of src/main.py lines 145-155. -/
def read_new_stock_pushed_flag (dayKey : Nat → String) (d : Nat)
    (fs : List String) : String × Bool :=
  (new_stock_flag_path dayKey d, fs.contains (new_stock_flag_path dayKey d))

/-- `mark_new_stock_info_pushed` of src/main.py lines 157-170: obtain today's
path from `read_new_stock_pushed_flag`, write the flag file, return `True`
together with the new filesystem. -/
def mark_new_stock_info_pushed (dayKey : Nat → String) (today : Nat)
    (fs : List String) : Bool × List String :=
  ((true : Bool), (read_new_stock_pushed_flag dayKey today fs).1 :: fs)

/-- Flag-file path of the listing push flag in src/main.py line 174. -/
def listing_flag_path (dayKey : Nat → String) (d : Nat) : String :=
  "data/listing_pushed_" ++ dayKey d ++ ".txt"

/-- `read_listing_pushed_flag` of src/main.py lines 172-181. -/
def read_listing_pushed_flag (dayKey : Nat → String) (d : Nat)
    (fs : List String) : String × Bool :=
  (listing_flag_path dayKey d, fs.contains (listing_flag_path dayKey d))

/-- `mark_listing_info_pushed` of src/main.py lines 183-195. -/
def mark_listing_info_pushed (dayKey : Nat → String) (today : Nat)
    (fs : List String) : Bool × List String :=
  ((true : Bool), (read_listing_pushed_flag dayKey today fs).1 :: fs)

/-- `format_new_stock_subscriptions_message` of src/main.py lines 88-100:
the no-data text for an empty set, otherwise the bulleted message starting
with the 【今日新股申购信息】 header; `stock.get(col, default)` is a cell
read with the default for a missing value. -/
def format_new_stock_subscriptions_message (rows : List StockData.SubRow) : String :=
  if rows.isEmpty then "今天没有新股可认购"
  else rows.foldl (fun acc s =>
    acc ++ "• " ++ s.name.getD "" ++ " (" ++ s.code.getD "" ++ ")\n" ++
    "  发行价: " ++ s.price.getD "未知" ++ "元\n" ++
    "  申购上限: " ++ s.cap.getD "未知" ++ "股\n" ++
    "  申购日期: " ++ s.subDate.getD "未知" ++ "\n\n") "【今日新股申购信息】\n"

/-- `format_new_stock_listings_message` of src/main.py lines 102-113. -/
def format_new_stock_listings_message (rows : List StockData.ListRow) : String :=
  if rows.isEmpty then "今天没有新上市股票可供交易"
  else rows.foldl (fun acc s =>
    acc ++ "• " ++ s.name.getD "" ++ " (" ++ s.code.getD "" ++ ")\n" ++
    "  发行价: " ++ s.price.getD "未知" ++ "元\n" ++
    "  上市日期: " ++ s.listDate.getD "未知" ++ "\n\n") "【今日新上市股票信息】\n"

/-- Outcome discriminator for a per-feed push invocation: the early-return
branch that detects the push flag (the "already pushed, skip" path logged on
src/main.py line 203/229), versus the path that attempts a send. -/
inductive PushOutcome
  | skippedAlreadyPushed
  | attempted
deriving DecidableEq

/-- Result of one per-feed push invocation: the returned boolean, which
branch was taken, the filesystem after the call, the messages handed to the
Notifier, and how many upstream fetch calls were made. -/
structure PushResult where
  success : Bool
  outcome : PushOutcome
  fs : List String
  sent : List String
  fetches : Nat
deriving DecidableEq

/-- `push_new_stock_info` of src/main.py lines 197-221.  `fetched` is the
value `get_new_stock_subscriptions` would return (`none` for its
exception-path `None`); `sendOk` is the Notifier oracle
(`send_wecom_message`).  When not in test mode and the flag for today
exists, return success immediately with no fetch and no send; otherwise
fetch, format, send, and on send success (not in test mode) mark the flag. -/
def push_new_stock_info (dayKey : Nat → String) (test : Bool) (today : Nat)
    (fetched : Option (List StockData.SubRow)) (sendOk : String → Bool)
    (fs : List String) : PushResult :=
  if !test && (read_new_stock_pushed_flag dayKey today fs).2 then
    { success := true, outcome := .skippedAlreadyPushed, fs := fs
      sent := [], fetches := 0 }
  else
    let base := match fetched with
      | none => "今天没有新股可认购"
      | some rows =>
        if rows.isEmpty then "今天没有新股可认购"
        else format_new_stock_subscriptions_message rows
    let msg := if test then "【测试消息】" ++ base else base
    let ok := sendOk msg
    let fs1 := if ok && !test then (mark_new_stock_info_pushed dayKey today fs).2 else fs
    { success := ok, outcome := .attempted, fs := fs1, sent := [msg], fetches := 1 }

/-- `push_listing_info` of src/main.py lines 223-247. -/
def push_listing_info (dayKey : Nat → String) (test : Bool) (today : Nat)
    (fetched : Option (List StockData.ListRow)) (sendOk : String → Bool)
    (fs : List String) : PushResult :=
  if !test && (read_listing_pushed_flag dayKey today fs).2 then
    { success := true, outcome := .skippedAlreadyPushed, fs := fs
      sent := [], fetches := 0 }
  else
    let base := match fetched with
      | none => "今天没有新上市股票可供交易"
      | some rows =>
        if rows.isEmpty then "今天没有新上市股票可供交易"
        else format_new_stock_listings_message rows
    let msg := if test then "【测试消息】" ++ base else base
    let ok := sendOk msg
    let fs1 := if ok && !test then (mark_listing_info_pushed dayKey today fs).2 else fs
    { success := ok, outcome := .attempted, fs := fs1, sent := [msg], fetches := 1 }

/-- Structured outcome of the `push_new_stock` branch of `main`
(src/main.py lines 257-277): the JSON response fields plus the run's
filesystem, Notifier traffic, and upstream fetch-call count. -/
structure MainRun where
  status : String
  message : Option String
  new_stock : Option String
  listing : Option String
  fs : List String
  sent : List String
  fetches : Nat
deriving DecidableEq

/-- The `task == 'push_new_stock'` branch of `main` (src/main.py lines
257-277): if today is not a trading day (the weekday-only check), return the
skipped response with no fetch and no send; otherwise run both per-feed
pushes (both with `test=False`, no force parameter exists) and report
`"success"` when both returned `True`, else `"partial_success"`, with the
per-feed fields. -/
def mainPushNewStock (dayKey : Nat → String) (today : Nat)
    (fetchedSub : Option (List StockData.SubRow))
    (fetchedList : Option (List StockData.ListRow))
    (sendOk : String → Bool) (fs : List String) : MainRun :=
  if !is_trading_day today then
    { status := "skipped", message := some "Not trading day", new_stock := none
      listing := none, fs := fs, sent := [], fetches := 0 }
  else
    let r1 := push_new_stock_info dayKey false today fetchedSub sendOk fs
    let r2 := push_listing_info dayKey false today fetchedList sendOk r1.fs
    { status := if r1.success && r2.success then "success" else "partial_success"
      message := none
      new_stock := some (if r1.success then "success" else "failed")
      listing := some (if r2.success then "success" else "failed")
      fs := r2.fs
      sent := r1.sent ++ r2.sent
      fetches := r1.fetches + r2.fetches }

end Main

/-- Modelled from the spec: the 14:30 checkpoint escalation path is not
present under src/ (no escalation code exists in src/main.py or
src/stock_data.py; only the main flow is there).  Spec §4.6: the
orchestrator is invoked independently at a fixed daily checkpoint; if at
that checkpoint either feed's push flag is still unset, send a distinct
high-priority alert message through the Notifier; the alert is not gated by
the Ledger (no flag is consulted for or written about the alert itself).
The alert text is a fixed high-priority message. -/
def escalationAlertMsg : String :=
  "【紧急提醒】今日新股信息推送尚未完成，请立即检查推送服务！"

/-- Modelled from the spec: the escalation checkpoint evaluated against the
Push-State Ledger of src/main.py.  Returns the messages sent to the
Notifier and the (unchanged) filesystem. -/
def escalation_checkpoint (dayKey : Nat → String) (today : Nat)
    (fs : List String) : List String × List String :=
  if !(Main.read_new_stock_pushed_flag dayKey today fs).2 ||
     !(Main.read_listing_pushed_flag dayKey today fs).2 then
    ([escalationAlertMsg], fs)
  else
    ([], fs)

/-- C6: if the trading-calendar query raises any error,
`is_trading_day date` deterministically returns true exactly when the date's
weekday is Monday through Friday (and false for Saturday and Sunday); and on
a successful query in which the date is absent from the calendar table, it
returns false. -/
theorem c6_trading_day_fallback :
    (∀ d : Nat, StockData.is_trading_day (.error ()) d = true ↔ weekday d ≤ 4) ∧
    (∀ (d : Nat) (entries : List (Nat × Int)),
      (∀ e ∈ entries, e.1 ≠ d) → StockData.is_trading_day (.ok entries) d = false) := by
  constructor
  · intro d
    simp [StockData.is_trading_day]
    omega
  · intro d entries h
    have hf : entries.filter (fun e => e.1 == d) = [] := by
      rw [List.filter_eq_nil_iff]
      intro e he
      simp [h e he]
    simp [StockData.is_trading_day, hf]

/-- Witness for C6 at concrete inputs: day 2 is a Wednesday, so the fallback
accepts it; day 5 is absent from the one-entry calendar, so the check
rejects it. -/
theorem c6_trading_day_fallback_witness :
    StockData.is_trading_day (.error ()) 2 = true ∧
    StockData.is_trading_day (.ok [(3, 1)]) 5 = false :=
  ⟨(c6_trading_day_fallback.1 2).mpr (by decide),
   c6_trading_day_fallback.2 5 [(3, 1)] (by decide)⟩

/-- C7: `akshare_retry` invokes the wrapped zero-argument upstream operation
at least once and at most 3 times; every inter-attempt delay is the fixed
2000 ms (2 seconds, no jitter, no exponential backoff); a first-attempt
success stops immediately; and if all 3 attempts fail the final failure is
propagated to the caller. -/
theorem c7_akshare_retry_bounded :
    ∀ op : Nat → Except String StockData.RawTable,
      1 ≤ (StockData.akshare_retry op).attempts ∧
      (StockData.akshare_retry op).attempts ≤ 3 ∧
      (∀ d ∈ (StockData.akshare_retry op).delays, d = 2000) ∧
      (∀ v, op 0 = .ok v → StockData.akshare_retry op = ⟨.ok v, 1, []⟩) ∧
      (∀ e0 e1 e2, op 0 = .error e0 → op 1 = .error e1 → op 2 = .error e2 →
        StockData.akshare_retry op = ⟨.error e2, 3, [2000, 2000]⟩) := by
  intro op
  rcases h0 : op 0 with e0 | v0
  · rcases h1 : op 1 with e1 | v1
    · rcases h2 : op 2 with e2 | v2
      · simp [StockData.akshare_retry, h0, h1, h2]
      · simp [StockData.akshare_retry, h0, h1, h2]
    · simp [StockData.akshare_retry, h0, h1]
  · simp [StockData.akshare_retry, h0]

/-- Witness for C7 at a concrete always-failing operation: three attempts,
two fixed delays, and the last error propagated. -/
theorem c7_akshare_retry_bounded_witness :
    StockData.akshare_retry
        (fun _ => (Except.error "boom" : Except String StockData.RawTable)) =
      ⟨Except.error "boom", 3, [2000, 2000]⟩ :=
  (c7_akshare_retry_bounded
      (fun _ => (Except.error "boom" : Except String StockData.RawTable))).2.2.2.2
    "boom" "boom" "boom" rfl rfl rfl

/-- C10: ledger round-trip in both modules: after the mark operation for a
feed completes on day D, the module's read of the same day reports
`is_pushed = true` together with the very flag path the mark wrote, both
sides deriving the key deterministically from the feed kind and the
`YYYYMMDD` day key. -/
theorem c10_ledger_roundtrip :
    ∀ (dayKey : Nat → String) (D : Nat) (fs : List String),
      (Main.mark_new_stock_info_pushed dayKey D fs).1 = true ∧
      (Main.mark_new_stock_info_pushed dayKey D fs).2.head?
        = some (Main.new_stock_flag_path dayKey D) ∧
      Main.read_new_stock_pushed_flag dayKey D
          (Main.mark_new_stock_info_pushed dayKey D fs).2
        = (Main.new_stock_flag_path dayKey D, true) ∧
      (Main.mark_listing_info_pushed dayKey D fs).1 = true ∧
      (Main.mark_listing_info_pushed dayKey D fs).2.head?
        = some (Main.listing_flag_path dayKey D) ∧
      Main.read_listing_pushed_flag dayKey D
          (Main.mark_listing_info_pushed dayKey D fs).2
        = (Main.listing_flag_path dayKey D, true) ∧
      (StockData.mark_new_stock_info_pushed dayKey D fs).1
        = StockData.new_stock_flag_path dayKey D ∧
      StockData.read_new_stock_pushed_flag dayKey D
          (StockData.mark_new_stock_info_pushed dayKey D fs).2
        = (StockData.new_stock_flag_path dayKey D, true) ∧
      (StockData.mark_listing_info_pushed dayKey D fs).1
        = StockData.listing_flag_path dayKey D ∧
      StockData.read_listing_pushed_flag dayKey D
          (StockData.mark_listing_info_pushed dayKey D fs).2
        = (StockData.listing_flag_path dayKey D, true) := by
  intro dayKey D fs
  refine ⟨rfl, rfl, ?_, rfl, rfl, ?_, rfl, ?_, rfl, ?_⟩ <;>
    simp [Main.read_new_stock_pushed_flag, Main.mark_new_stock_info_pushed,
      Main.read_listing_pushed_flag, Main.mark_listing_info_pushed,
      StockData.read_new_stock_pushed_flag, StockData.mark_new_stock_info_pushed,
      StockData.read_listing_pushed_flag, StockData.mark_listing_info_pushed]

/-- C1: for any date D, if a first non-test invocation of a per-feed push
(`push_new_stock_info` / `push_listing_info`) ends with a successful send
followed by the successful mark of the push flag for D, then a second
non-test invocation on the same date D detects the flag, returns success
with the skipped-already-pushed outcome, and performs no second send (the
Notifier is not called) and no fetch. -/
theorem c1_idempotent_push (dayKey : Nat → String) (D : Nat)
    (f1 f2 : Option (List StockData.SubRow))
    (g1 g2 : Option (List StockData.ListRow))
    (sendOk : String → Bool) (fsS fsL : List String)
    (h1 : (Main.read_new_stock_pushed_flag dayKey D fsS).2 = false)
    (h2 : (Main.push_new_stock_info dayKey false D f1 sendOk fsS).success = true)
    (h3 : (Main.read_listing_pushed_flag dayKey D fsL).2 = false)
    (h4 : (Main.push_listing_info dayKey false D g1 sendOk fsL).success = true) :
    Main.push_new_stock_info dayKey false D f2 sendOk
        (Main.push_new_stock_info dayKey false D f1 sendOk fsS).fs =
      { success := true, outcome := .skippedAlreadyPushed
        fs := (Main.push_new_stock_info dayKey false D f1 sendOk fsS).fs
        sent := [], fetches := 0 } ∧
    Main.push_listing_info dayKey false D g2 sendOk
        (Main.push_listing_info dayKey false D g1 sendOk fsL).fs =
      { success := true, outcome := .skippedAlreadyPushed
        fs := (Main.push_listing_info dayKey false D g1 sendOk fsL).fs
        sent := [], fetches := 0 } := by
  constructor
  · have e1 : (Main.push_new_stock_info dayKey false D f1 sendOk fsS).fs
        = Main.new_stock_flag_path dayKey D :: fsS := by
      simp only [Main.push_new_stock_info, h1, Bool.not_false, Bool.true_and,
        Bool.false_eq_true, if_false] at h2 ⊢
      simp only [h2, Bool.and_self, if_true, Main.mark_new_stock_info_pushed,
        Main.read_new_stock_pushed_flag]
    have e2 : (Main.read_new_stock_pushed_flag dayKey D
        ((Main.push_new_stock_info dayKey false D f1 sendOk fsS).fs)).2 = true := by
      rw [e1]
      simp [Main.read_new_stock_pushed_flag]
    set X := (Main.push_new_stock_info dayKey false D f1 sendOk fsS).fs with hX
    simp [Main.push_new_stock_info, e2]
  · have e1 : (Main.push_listing_info dayKey false D g1 sendOk fsL).fs
        = Main.listing_flag_path dayKey D :: fsL := by
      simp only [Main.push_listing_info, h3, Bool.not_false, Bool.true_and,
        Bool.false_eq_true, if_false] at h4 ⊢
      simp only [h4, Bool.and_self, if_true, Main.mark_listing_info_pushed,
        Main.read_listing_pushed_flag]
    have e2 : (Main.read_listing_pushed_flag dayKey D
        ((Main.push_listing_info dayKey false D g1 sendOk fsL).fs)).2 = true := by
      rw [e1]
      simp [Main.read_listing_pushed_flag]
    set Y := (Main.push_listing_info dayKey false D g1 sendOk fsL).fs with hY
    simp [Main.push_listing_info, e2]

/-- Witness for C1 at concrete inputs: empty filesystem, always-succeeding
Notifier, no offerings; the second run of each feed skips with no send. -/
theorem c1_idempotent_push_witness :
    Main.push_new_stock_info (fun _ => "20240301") false 0 none (fun _ => true)
        (Main.push_new_stock_info (fun _ => "20240301") false 0 none
          (fun _ => true) []).fs =
      { success := true, outcome := .skippedAlreadyPushed
        fs := (Main.push_new_stock_info (fun _ => "20240301") false 0 none
          (fun _ => true) []).fs
        sent := [], fetches := 0 } ∧
    Main.push_listing_info (fun _ => "20240301") false 0 none (fun _ => true)
        (Main.push_listing_info (fun _ => "20240301") false 0 none
          (fun _ => true) []).fs =
      { success := true, outcome := .skippedAlreadyPushed
        fs := (Main.push_listing_info (fun _ => "20240301") false 0 none
          (fun _ => true) []).fs
        sent := [], fetches := 0 } :=
  c1_idempotent_push (fun _ => "20240301") 0 none none none none
    (fun _ => true) [] [] (by decide) (by decide) (by decide) (by decide)

/-- Character data of a string concatenation. -/
lemma strData_append (s t : String) : (s ++ t).data = s.data ++ t.data := rfl

/-- Appending on the right preserves the character at index 1. -/
lemma char1_append (c : Char) (s t : String) (h : s.data[1]? = some c) :
    (s ++ t).data[1]? = some c := by
  rw [strData_append]
  rcases List.getElem?_eq_some.mp h with ⟨hl, _⟩
  rw [List.getElem?_append_left hl]
  exact h

/-- The subscription-formatter fold preserves the character at index 1 of
its accumulator. -/
lemma format_sub_foldl_char1 : ∀ (rows : List StockData.SubRow) (acc : String),
    acc.data[1]? = some '今' →
    (rows.foldl (fun acc s =>
      acc ++ "• " ++ s.name.getD "" ++ " (" ++ s.code.getD "" ++ ")\n" ++
      "  发行价: " ++ s.price.getD "未知" ++ "元\n" ++
      "  申购上限: " ++ s.cap.getD "未知" ++ "股\n" ++
      "  申购日期: " ++ s.subDate.getD "未知" ++ "\n\n") acc).data[1]?
      = some '今' := by
  intro rows
  induction rows with
  | nil => intro acc h; exact h
  | cons r rs ih =>
    intro acc h
    simp only [List.foldl_cons]
    apply ih
    repeat (first | apply char1_append | exact h)

/-- The listing-formatter fold preserves the character at index 1 of its
accumulator. -/
lemma format_list_foldl_char1 : ∀ (rows : List StockData.ListRow) (acc : String),
    acc.data[1]? = some '今' →
    (rows.foldl (fun acc s =>
      acc ++ "• " ++ s.name.getD "" ++ " (" ++ s.code.getD "" ++ ")\n" ++
      "  发行价: " ++ s.price.getD "未知" ++ "元\n" ++
      "  上市日期: " ++ s.listDate.getD "未知" ++ "\n\n") acc).data[1]?
      = some '今' := by
  intro rows
  induction rows with
  | nil => intro acc h; exact h
  | cons r rs ih =>
    intro acc h
    simp only [List.foldl_cons]
    apply ih
    repeat (first | apply char1_append | exact h)

/-- Every non-empty formatted subscription message has '今' at index 1
(its header is 【今日新股申购信息】). -/
lemma sub_msg_char1 (r : StockData.SubRow) (rs : List StockData.SubRow) :
    (Main.format_new_stock_subscriptions_message (r :: rs)).data[1]? = some '今' := by
  unfold Main.format_new_stock_subscriptions_message
  rw [if_neg (by simp)]
  exact format_sub_foldl_char1 (r :: rs) _ (by decide)

/-- Every non-empty formatted listing message has '今' at index 1. -/
lemma list_msg_char1 (r : StockData.ListRow) (rs : List StockData.ListRow) :
    (Main.format_new_stock_listings_message (r :: rs)).data[1]? = some '今' := by
  unfold Main.format_new_stock_listings_message
  rw [if_neg (by simp)]
  exact format_list_foldl_char1 (r :: rs) _ (by decide)

/-- C4: at the fixed 14:30 checkpoint (spec-modelled: the escalation job is
not in src/), if the push flag of a feed for today is still unset, the
escalation path sends exactly one high-priority alert through the Notifier,
its content is distinct from every normal feed message (empty or
populated, for either feed), and the push-flag ledger does not gate it:
no flag is written (the filesystem is unchanged). -/
theorem c4_escalation_alert (dayKey : Nat → String) (D : Nat) (fs : List String)
    (h : (Main.read_new_stock_pushed_flag dayKey D fs).2 = false) :
    (escalation_checkpoint dayKey D fs).1 = [escalationAlertMsg] ∧
    (escalation_checkpoint dayKey D fs).2 = fs ∧
    (∀ rows, escalationAlertMsg ≠ Main.format_new_stock_subscriptions_message rows) ∧
    (∀ rows, escalationAlertMsg ≠ Main.format_new_stock_listings_message rows) := by
  refine ⟨?_, ?_, ?_, ?_⟩
  · simp [escalation_checkpoint, h]
  · unfold escalation_checkpoint
    split <;> rfl
  · intro rows hcontra
    rcases rows with _ | ⟨r, rs⟩
    · exact absurd hcontra (by decide)
    · have h1 := sub_msg_char1 r rs
      rw [← hcontra] at h1
      have h2 : escalationAlertMsg.data[1]? = some '紧' := by decide
      rw [h2] at h1
      exact absurd h1 (by decide)
  · intro rows hcontra
    rcases rows with _ | ⟨r, rs⟩
    · exact absurd hcontra (by decide)
    · have h1 := list_msg_char1 r rs
      rw [← hcontra] at h1
      have h2 : escalationAlertMsg.data[1]? = some '紧' := by decide
      rw [h2] at h1
      exact absurd h1 (by decide)

/-- Witness for C4 at a concrete unset ledger: exactly one alert is sent,
the filesystem is untouched, and the alert differs from the no-data feed
message. -/
theorem c4_escalation_alert_witness :
    (escalation_checkpoint (fun _ => "20240301") 0 []).1 = [escalationAlertMsg] ∧
    (escalation_checkpoint (fun _ => "20240301") 0 []).2 = [] ∧
    escalationAlertMsg ≠ Main.format_new_stock_subscriptions_message [] :=
  ⟨(c4_escalation_alert (fun _ => "20240301") 0 [] (by decide)).1,
   (c4_escalation_alert (fun _ => "20240301") 0 [] (by decide)).2.1,
   (c4_escalation_alert (fun _ => "20240301") 0 [] (by decide)).2.2.1 []⟩

/-- A candidate raw table with no code-keyword or no name-keyword column is
skipped by the subscription normalizer. -/
lemma processSub_none_of_missing (parse : String → Option String)
    (raw : StockData.RawTable) (d : String)
    (h : StockData.findCol StockData.isCodeCol raw = none ∨
         StockData.findCol StockData.isNameCol raw = none) :
    StockData.processSubCandidate parse raw d = none := by
  unfold StockData.processSubCandidate
  rcases h with h | h <;> (repeat' split) <;> simp_all

/-- A candidate raw table with no code-keyword or no name-keyword column is
skipped by the listing normalizer. -/
lemma processList_none_of_missing (parse : String → Option String)
    (raw : StockData.RawTable) (d : String)
    (h : StockData.findCol StockData.isCodeCol raw = none ∨
         StockData.findCol StockData.isNameCol raw = none) :
    StockData.processListCandidate parse raw d = none := by
  unfold StockData.processListCandidate
  rcases h with h | h <;> (repeat' split) <;> simp_all

/-- If every successfully fetched candidate table normalizes to nothing, the
subscription scan returns the empty table. -/
lemma scanSub_nil_of_all_none (parse : String → Option String)
    (fetch : Nat → Except String StockData.RawTable) (dayStr : Nat → String)
    (h : ∀ j raw, fetch j = .ok raw →
      ∀ d, StockData.processSubCandidate parse raw d = none) :
    ∀ (ds : List Nat) (k : Nat), StockData.scanSub parse fetch dayStr ds k = [] := by
  intro ds
  induction ds with
  | nil => intro k; rfl
  | cons d rest ih =>
    intro k
    cases hf : fetch k with
    | error e => simp only [StockData.scanSub, hf]; exact ih (k + 1)
    | ok raw =>
      simp only [StockData.scanSub, hf, h k raw hf (dayStr d)]
      exact ih (k + 1)

/-- If every successfully fetched candidate table normalizes to nothing, the
listing scan returns the empty table. -/
lemma scanList_nil_of_all_none (parse : String → Option String)
    (fetch : Nat → Except String StockData.RawTable) (dayStr : Nat → String)
    (h : ∀ j raw, fetch j = .ok raw →
      ∀ d, StockData.processListCandidate parse raw d = none) :
    ∀ (ds : List Nat) (k : Nat), StockData.scanList parse fetch dayStr ds k = [] := by
  intro ds
  induction ds with
  | nil => intro k; rfl
  | cons d rest ih =>
    intro k
    cases hf : fetch k with
    | error e => simp only [StockData.scanList, hf]; exact ih (k + 1)
    | ok raw =>
      simp only [StockData.scanList, hf, h k raw hf (dayStr d)]
      exact ih (k + 1)

/-- C2: a raw upstream table in which no column name matches the code
keywords or no column name matches the name keywords makes the normalizer
skip that candidate (for either feed), and when every fetched table is such,
`get_new_stock_subscriptions` / `get_new_stock_listings` return the empty
result. -/
theorem c2_missing_identity_gate :
    (∀ (parse : String → Option String) (raw : StockData.RawTable) (d : String),
      StockData.findCol StockData.isCodeCol raw = none ∨
        StockData.findCol StockData.isNameCol raw = none →
      StockData.processSubCandidate parse raw d = none) ∧
    (∀ (parse : String → Option String) (raw : StockData.RawTable) (d : String),
      StockData.findCol StockData.isCodeCol raw = none ∨
        StockData.findCol StockData.isNameCol raw = none →
      StockData.processListCandidate parse raw d = none) ∧
    (∀ (parse : String → Option String) (fetch : Nat → Except String StockData.RawTable)
      (dayStr : Nat → String) (tm : Bool) (today : Nat),
      (∀ j raw, fetch j = .ok raw →
        StockData.findCol StockData.isCodeCol raw = none ∨
          StockData.findCol StockData.isNameCol raw = none) →
      StockData.get_new_stock_subscriptions parse fetch dayStr tm today = []) ∧
    (∀ (parse : String → Option String) (fetch : Nat → Except String StockData.RawTable)
      (dayStr : Nat → String) (tm : Bool) (today : Nat),
      (∀ j raw, fetch j = .ok raw →
        StockData.findCol StockData.isCodeCol raw = none ∨
          StockData.findCol StockData.isNameCol raw = none) →
      StockData.get_new_stock_listings parse fetch dayStr tm today = []) := by
  refine ⟨processSub_none_of_missing, processList_none_of_missing, ?_, ?_⟩
  · intro parse fetch dayStr tm today h
    exact scanSub_nil_of_all_none parse fetch dayStr
      (fun j raw hr d => processSub_none_of_missing parse raw d (h j raw hr)) _ 0
  · intro parse fetch dayStr tm today h
    exact scanList_nil_of_all_none parse fetch dayStr
      (fun j raw hr d => processList_none_of_missing parse raw d (h j raw hr)) _ 0

/-- Witness for C2 at a concrete table carrying only a date column: the
candidate is skipped and the diagnostic-mode resolver returns the empty
result for both feeds. -/
theorem c2_missing_identity_gate_witness :
    StockData.processSubCandidate some
      ⟨["申购日期"], [[some "2024-01-01"]]⟩ "2024-01-01" = none ∧
    StockData.get_new_stock_subscriptions some
      (fun _ => .ok ⟨["申购日期"], [[some "2024-01-01"]]⟩)
      (fun _ => "2024-01-01") true 21 = [] ∧
    StockData.get_new_stock_listings some
      (fun _ => .ok ⟨["上市日期"], [[some "2024-01-01"]]⟩)
      (fun _ => "2024-01-01") true 21 = [] :=
  ⟨c2_missing_identity_gate.1 some ⟨["申购日期"], [[some "2024-01-01"]]⟩
      "2024-01-01" (Or.inl (by decide)),
   c2_missing_identity_gate.2.2.1 some
      (fun _ => .ok ⟨["申购日期"], [[some "2024-01-01"]]⟩)
      (fun _ => "2024-01-01") true 21
      (fun j raw hr => by cases hr; exact Or.inl (by decide)),
   c2_missing_identity_gate.2.2.2 some
      (fun _ => .ok ⟨["上市日期"], [[some "2024-01-01"]]⟩)
      (fun _ => "2024-01-01") true 21
      (fun j raw hr => by cases hr; exact Or.inl (by decide))⟩

/-- C9: a per-candidate fetch exception, or a candidate whose normalization
yields nothing, makes the lookback scan continue with the next candidate
date (for either feed); and when every candidate is exhausted without a
qualifying result the fetcher returns the empty table — a plain value, not
an exception. -/
theorem c9_per_candidate_errors :
    (∀ (parse : String → Option String) (fetch : Nat → Except String StockData.RawTable)
      (dayStr : Nat → String) (d : Nat) (ds : List Nat) (k : Nat) (msg : String),
      fetch k = .error msg →
      StockData.scanSub parse fetch dayStr (d :: ds) k
        = StockData.scanSub parse fetch dayStr ds (k + 1)) ∧
    (∀ (parse : String → Option String) (fetch : Nat → Except String StockData.RawTable)
      (dayStr : Nat → String) (d : Nat) (ds : List Nat) (k : Nat) (raw : StockData.RawTable),
      fetch k = .ok raw →
      StockData.processSubCandidate parse raw (dayStr d) = none →
      StockData.scanSub parse fetch dayStr (d :: ds) k
        = StockData.scanSub parse fetch dayStr ds (k + 1)) ∧
    (∀ (parse : String → Option String) (fetch : Nat → Except String StockData.RawTable)
      (dayStr : Nat → String) (d : Nat) (ds : List Nat) (k : Nat) (msg : String),
      fetch k = .error msg →
      StockData.scanList parse fetch dayStr (d :: ds) k
        = StockData.scanList parse fetch dayStr ds (k + 1)) ∧
    (∀ (parse : String → Option String) (fetch : Nat → Except String StockData.RawTable)
      (dayStr : Nat → String) (d : Nat) (ds : List Nat) (k : Nat) (raw : StockData.RawTable),
      fetch k = .ok raw →
      StockData.processListCandidate parse raw (dayStr d) = none →
      StockData.scanList parse fetch dayStr (d :: ds) k
        = StockData.scanList parse fetch dayStr ds (k + 1)) ∧
    (∀ (parse : String → Option String) (fetch : Nat → Except String StockData.RawTable)
      (dayStr : Nat → String) (tm : Bool) (today : Nat),
      (∀ j raw, fetch j = .ok raw →
        ∀ d, StockData.processSubCandidate parse raw d = none) →
      StockData.get_new_stock_subscriptions parse fetch dayStr tm today = []) ∧
    (∀ (parse : String → Option String) (fetch : Nat → Except String StockData.RawTable)
      (dayStr : Nat → String) (tm : Bool) (today : Nat),
      (∀ j raw, fetch j = .ok raw →
        ∀ d, StockData.processListCandidate parse raw d = none) →
      StockData.get_new_stock_listings parse fetch dayStr tm today = []) := by
  refine ⟨?_, ?_, ?_, ?_, ?_, ?_⟩
  · intro parse fetch dayStr d ds k msg h
    simp only [StockData.scanSub, h]
  · intro parse fetch dayStr d ds k raw h hp
    simp only [StockData.scanSub, h, hp]
  · intro parse fetch dayStr d ds k msg h
    simp only [StockData.scanList, h]
  · intro parse fetch dayStr d ds k raw h hp
    simp only [StockData.scanList, h, hp]
  · intro parse fetch dayStr tm today h
    exact scanSub_nil_of_all_none parse fetch dayStr h _ 0
  · intro parse fetch dayStr tm today h
    exact scanList_nil_of_all_none parse fetch dayStr h _ 0

/-- Witness for C9 at a concrete always-failing fetch: the scan walks past
the erroring candidate, and full exhaustion yields the empty table. -/
theorem c9_per_candidate_errors_witness :
    StockData.scanSub some (fun _ => .error "network down") (fun _ => "2024-01-01")
        [5] 0
      = StockData.scanSub some (fun _ => .error "network down")
          (fun _ => "2024-01-01") [] 1 ∧
    StockData.get_new_stock_subscriptions some (fun _ => .error "network down")
        (fun _ => "2024-01-01") true 21 = [] ∧
    StockData.get_new_stock_listings some (fun _ => .error "network down")
        (fun _ => "2024-01-01") true 21 = [] :=
  ⟨c9_per_candidate_errors.1 some (fun _ => .error "network down")
      (fun _ => "2024-01-01") 5 [] 0 "network down" rfl,
   c9_per_candidate_errors.2.2.2.2.1 some (fun _ => .error "network down")
      (fun _ => "2024-01-01") true 21
      (fun _ _ hr => Except.noConfusion hr),
   c9_per_candidate_errors.2.2.2.2.2 some (fun _ => .error "network down")
      (fun _ => "2024-01-01") true 21
      (fun _ _ hr => Except.noConfusion hr)⟩

/-- Every row of a successful subscription normalization is stamped with the
candidate's date string. -/
lemma processSub_subDate (parse : String → Option String)
    (raw : StockData.RawTable) (d : String) (res : List StockData.SubRow)
    (h : StockData.processSubCandidate parse raw d = some res) :
    ∀ row ∈ res, row.subDate = some d := by
  unfold StockData.processSubCandidate at h
  repeat' split at h
  all_goals try exact Option.noConfusion h
  injection h with h
  subst h
  intro row hrow
  unfold StockData.mkSubRows at hrow
  rw [List.mem_map] at hrow
  obtain ⟨r0, _, hmap⟩ := hrow
  rw [← hmap]
  rfl

/-- If the candidate at offset `i` of the remaining date list normalizes
successfully, the subscription scan returns the successful normalization of
some candidate at an offset `j ≤ i`. -/
lemma scanSub_first (parse : String → Option String)
    (fetch : Nat → Except String StockData.RawTable) (dayStr : Nat → String) :
    ∀ (ds : List Nat) (k i : Nat) (hi : i < ds.length) (raw : StockData.RawTable)
      (r : List StockData.SubRow),
      fetch (k + i) = .ok raw →
      StockData.processSubCandidate parse raw (dayStr (ds.get ⟨i, hi⟩)) = some r →
      ∃ j, j ≤ i ∧ ∃ hj : j < ds.length, ∃ raw1 r1,
        fetch (k + j) = .ok raw1 ∧
        StockData.processSubCandidate parse raw1 (dayStr (ds.get ⟨j, hj⟩)) = some r1 ∧
        StockData.scanSub parse fetch dayStr ds k = r1 := by
  intro ds
  induction ds with
  | nil => intro k i hi; exact absurd hi (by simp)
  | cons d rest ih =>
    intro k i hi raw r hf hp
    cases hfk : fetch k with
    | error e =>
      cases i with
      | zero =>
        rw [Nat.add_zero, hfk] at hf
        exact Except.noConfusion hf
      | succ i0 =>
        have hi0 : i0 < rest.length := by simpa using hi
        have hf1 : fetch (k + 1 + i0) = .ok raw := by
          rw [show k + 1 + i0 = k + (i0 + 1) by omega]
          exact hf
        have hp1 : StockData.processSubCandidate parse raw
            (dayStr (rest.get ⟨i0, hi0⟩)) = some r := hp
        obtain ⟨j, hj_le, hjlt, raw1, r1, h1, h2, h3⟩ :=
          ih (k + 1) i0 hi0 raw r hf1 hp1
        refine ⟨j + 1, by omega, by simpa using Nat.succ_lt_succ hjlt,
          raw1, r1, ?_, h2, ?_⟩
        · rw [show k + (j + 1) = k + 1 + j by omega]
          exact h1
        · simp only [StockData.scanSub, hfk]
          exact h3
    | ok raw0 =>
      cases hp0 : StockData.processSubCandidate parse raw0 (dayStr d) with
      | some r0 =>
        refine ⟨0, Nat.zero_le i, by simp, raw0, r0, ?_, hp0, ?_⟩
        · rw [Nat.add_zero]
          exact hfk
        · simp only [StockData.scanSub, hfk, hp0]
      | none =>
        cases i with
        | zero =>
          rw [Nat.add_zero, hfk] at hf
          injection hf with hraw
          have h5 : StockData.processSubCandidate parse raw (dayStr d) = some r := hp
          rw [← hraw, hp0] at h5
          exact Option.noConfusion h5
        | succ i0 =>
          have hi0 : i0 < rest.length := by simpa using hi
          have hf1 : fetch (k + 1 + i0) = .ok raw := by
            rw [show k + 1 + i0 = k + (i0 + 1) by omega]
            exact hf
          have hp1 : StockData.processSubCandidate parse raw
              (dayStr (rest.get ⟨i0, hi0⟩)) = some r := hp
          obtain ⟨j, hj_le, hjlt, raw1, r1, h1, h2, h3⟩ :=
            ih (k + 1) i0 hi0 raw r hf1 hp1
          refine ⟨j + 1, by omega, by simpa using Nat.succ_lt_succ hjlt,
            raw1, r1, ?_, h2, ?_⟩
          · rw [show k + (j + 1) = k + 1 + j by omega]
            exact h1
          · simp only [StockData.scanSub, hfk, hp0]
            exact h3

/-- C3: in diagnostic (test) mode the lookback resolver walks the 22
candidate dates from today down to today-21 and returns the normalization of
the first qualifying candidate: if the candidate at offset k (date
today - k) normalizes to a non-empty complete result, the resolver returns
the result of some offset j ≤ k — a date at least as recent as today - k —
and every returned row is stamped with that candidate's date, so data from a
date strictly older than a qualifying date is never returned. -/
theorem c3_lookback_first_match (parse : String → Option String)
    (fetch : Nat → Except String StockData.RawTable) (dayStr : Nat → String)
    (today k : Nat) (hk : k < 22) (raw : StockData.RawTable)
    (r : List StockData.SubRow)
    (hf : fetch k = .ok raw)
    (hp : StockData.processSubCandidate parse raw (dayStr (today - k)) = some r) :
    ∃ j, j ≤ k ∧ today - k ≤ today - j ∧ ∃ raw1 r1,
      fetch j = .ok raw1 ∧
      StockData.processSubCandidate parse raw1 (dayStr (today - j)) = some r1 ∧
      StockData.get_new_stock_subscriptions parse fetch dayStr true today = r1 ∧
      ∀ row ∈ r1, row.subDate = some (dayStr (today - j)) := by
  have hlen : (StockData.candidateDates true today).length = 22 := by
    simp [StockData.candidateDates]
  have hi : k < (StockData.candidateDates true today).length := by
    rw [hlen]; exact hk
  have hget : ∀ (m : Nat) (hm : m < (StockData.candidateDates true today).length),
      (StockData.candidateDates true today).get ⟨m, hm⟩ = today - m := by
    intro m hm
    simp [StockData.candidateDates]
  have hf0 : fetch (0 + k) = .ok raw := by rw [Nat.zero_add]; exact hf
  have hp0 : StockData.processSubCandidate parse raw
      (dayStr ((StockData.candidateDates true today).get ⟨k, hi⟩)) = some r := by
    rw [hget k hi]; exact hp
  obtain ⟨j, hjk, hjlt, raw1, r1, h1, h2, h3⟩ :=
    scanSub_first parse fetch dayStr (StockData.candidateDates true today)
      0 k hi raw r hf0 hp0
  rw [hget j hjlt] at h2
  refine ⟨j, hjk, Nat.sub_le_sub_left hjk today, raw1, r1, ?_, h2, h3, ?_⟩
  · rw [← Nat.zero_add j]
    exact h1
  · exact processSub_subDate parse raw1 (dayStr (today - j)) r1 h2

/-- Witness for C3 at a concrete diagnostic run: the candidate at offset 0
qualifies (one complete row for 2024-03-01), and the resolver returns that
very result, stamped with the candidate's date. -/
theorem c3_lookback_first_match_witness :
    ∃ j, j ≤ 0 ∧ 21 - 0 ≤ 21 - j ∧ ∃ raw1 r1,
      (fun _ : Nat => (Except.ok (⟨["申购日期", "股票代码", "股票简称", "发行价格", "申购上限"],
          [[some "2024-03-01", some "688001", some "华兴源创", some "24.26", some "500"]]⟩
          : StockData.RawTable) : Except String StockData.RawTable)) j = .ok raw1 ∧
      StockData.processSubCandidate some raw1 ((fun _ : Nat => "2024-03-01") (21 - j))
        = some r1 ∧
      StockData.get_new_stock_subscriptions some
        (fun _ => .ok ⟨["申购日期", "股票代码", "股票简称", "发行价格", "申购上限"],
          [[some "2024-03-01", some "688001", some "华兴源创", some "24.26", some "500"]]⟩)
        (fun _ => "2024-03-01") true 21 = r1 ∧
      ∀ row ∈ r1, row.subDate = some ((fun _ : Nat => "2024-03-01") (21 - j)) :=
  c3_lookback_first_match some
    (fun _ => .ok ⟨["申购日期", "股票代码", "股票简称", "发行价格", "申购上限"],
      [[some "2024-03-01", some "688001", some "华兴源创", some "24.26", some "500"]]⟩)
    (fun _ => "2024-03-01") 21 0 (by decide)
    ⟨["申购日期", "股票代码", "股票简称", "发行价格", "申购上限"],
      [[some "2024-03-01", some "688001", some "华兴源创", some "24.26", some "500"]]⟩
    [⟨some "688001", some "华兴源创", some "24.26", some "500",
      some "2024-03-01", some "股票"⟩]
    rfl (by decide)

/-- C5 counterexample: the claim "for any date D on which the external
trading-calendar source reports isOpen=0, the push_new_stock orchestration
performs no upstream fetch" is false: `main` gates only on the weekday-based
`is_trading_day` of src/main.py and never consults the calendar, so on a
Monday (day 0) that the calendar marks closed the run still fetches
(twice). -/
theorem c5_trading_gate_counterexample :
    ¬ (∀ (cal : Nat → Int) (D : Nat) (dayKey : Nat → String)
        (fSub : Option (List StockData.SubRow))
        (fList : Option (List StockData.ListRow))
        (send : String → Bool) (fs : List String),
        cal D = 0 →
        (Main.mainPushNewStock dayKey D fSub fList send fs).fetches = 0) := by
  intro h
  have h2 := h (fun _ => 0) 0 (fun _ => "") none none (fun _ => false) [] rfl
  have h3 : (Main.mainPushNewStock (fun _ => "") 0 none none
      (fun _ => false) []).fetches = 2 := by decide
  omega

/-- C5 (amended): the gate src/main.py actually applies is the weekday
heuristic: for any date whose weekday is Saturday or Sunday, the
push_new_stock task performs no upstream fetch and no send and returns the
skipped outcome "Not trading day"; the external calendar plays no role. -/
theorem c5_weekday_gate (dayKey : Nat → String) (today : Nat)
    (fSub : Option (List StockData.SubRow))
    (fList : Option (List StockData.ListRow))
    (send : String → Bool) (fs : List String) (h : 4 < weekday today) :
    (Main.mainPushNewStock dayKey today fSub fList send fs).status = "skipped" ∧
    (Main.mainPushNewStock dayKey today fSub fList send fs).message
      = some "Not trading day" ∧
    (Main.mainPushNewStock dayKey today fSub fList send fs).fetches = 0 ∧
    (Main.mainPushNewStock dayKey today fSub fList send fs).sent = [] := by
  have ht : Main.is_trading_day today = false := by
    simp [Main.is_trading_day]
    omega
  simp [Main.mainPushNewStock, ht]

/-- Witness for C5 (amended) at day 5, a Saturday: skipped with no fetch. -/
theorem c5_weekday_gate_witness :
    (Main.mainPushNewStock (fun _ => "") 5 none none (fun _ => false) []).status
      = "skipped" ∧
    (Main.mainPushNewStock (fun _ => "") 5 none none (fun _ => false) []).message
      = some "Not trading day" ∧
    (Main.mainPushNewStock (fun _ => "") 5 none none (fun _ => false) []).fetches
      = 0 ∧
    (Main.mainPushNewStock (fun _ => "") 5 none none (fun _ => false) []).sent
      = [] :=
  c5_weekday_gate (fun _ => "") 5 none none (fun _ => false) [] (by decide)

/-- C8 counterexample: with both feeds failing (the Notifier refuses every
message and no flag is set), the reported overall status is
"partial_success" although zero feeds succeeded — refuting "partial_success
iff exactly one of the two feeds succeeded". -/
theorem c8_partial_success_counterexample :
    (Main.mainPushNewStock (fun _ => "") 0 none none (fun _ => false) []).status
      = "partial_success" ∧
    (Main.mainPushNewStock (fun _ => "") 0 none none (fun _ => false) []).new_stock
      = some "failed" ∧
    (Main.mainPushNewStock (fun _ => "") 0 none none (fun _ => false) []).listing
      = some "failed" := by
  refine ⟨?_, ?_, ?_⟩ <;> rfl

/-- C8 (amended): on a trading day the overall status is "success" iff both
feeds succeeded, and "partial_success" iff not both succeeded — including
the case in which both failed; the per-feed fields reflect each feed's own
result. -/
theorem c8_overall_status (dayKey : Nat → String) (today : Nat)
    (fSub : Option (List StockData.SubRow))
    (fList : Option (List StockData.ListRow))
    (send : String → Bool) (fs : List String) (h : weekday today ≤ 4) :
    ((Main.mainPushNewStock dayKey today fSub fList send fs).status = "success" ↔
      ((Main.push_new_stock_info dayKey false today fSub send fs).success = true ∧
       (Main.push_listing_info dayKey false today fList send
         (Main.push_new_stock_info dayKey false today fSub send fs).fs).success
           = true)) ∧
    ((Main.mainPushNewStock dayKey today fSub fList send fs).status
        = "partial_success" ↔
      ¬((Main.push_new_stock_info dayKey false today fSub send fs).success = true ∧
        (Main.push_listing_info dayKey false today fList send
          (Main.push_new_stock_info dayKey false today fSub send fs).fs).success
            = true)) ∧
    ((Main.mainPushNewStock dayKey today fSub fList send fs).new_stock
        = some "success" ↔
      (Main.push_new_stock_info dayKey false today fSub send fs).success = true) ∧
    ((Main.mainPushNewStock dayKey today fSub fList send fs).listing
        = some "success" ↔
      (Main.push_listing_info dayKey false today fList send
        (Main.push_new_stock_info dayKey false today fSub send fs).fs).success
          = true) := by
  have ht : Main.is_trading_day today = true := by
    simp [Main.is_trading_day]
    omega
  simp only [Main.mainPushNewStock, ht, Bool.not_true, Bool.false_eq_true,
    if_false]
  cases hr1 : (Main.push_new_stock_info dayKey false today fSub send fs).success <;>
    cases hr2 : (Main.push_listing_info dayKey false today fList send
      (Main.push_new_stock_info dayKey false today fSub send fs).fs).success <;>
    simp [hr1, hr2]

/-- Witness for C8 (amended) at a concrete trading-day run in which both
feeds fail. -/
theorem c8_overall_status_witness :
    ((Main.mainPushNewStock (fun _ => "") 0 none none (fun _ => false) []).status
        = "success" ↔
      ((Main.push_new_stock_info (fun _ => "") false 0 none (fun _ => false) []).success
          = true ∧
       (Main.push_listing_info (fun _ => "") false 0 none (fun _ => false)
         (Main.push_new_stock_info (fun _ => "") false 0 none
           (fun _ => false) []).fs).success = true)) ∧
    ((Main.mainPushNewStock (fun _ => "") 0 none none (fun _ => false) []).status
        = "partial_success" ↔
      ¬((Main.push_new_stock_info (fun _ => "") false 0 none
          (fun _ => false) []).success = true ∧
        (Main.push_listing_info (fun _ => "") false 0 none (fun _ => false)
          (Main.push_new_stock_info (fun _ => "") false 0 none
            (fun _ => false) []).fs).success = true)) ∧
    ((Main.mainPushNewStock (fun _ => "") 0 none none (fun _ => false) []).new_stock
        = some "success" ↔
      (Main.push_new_stock_info (fun _ => "") false 0 none
        (fun _ => false) []).success = true) ∧
    ((Main.mainPushNewStock (fun _ => "") 0 none none (fun _ => false) []).listing
        = some "success" ↔
      (Main.push_listing_info (fun _ => "") false 0 none (fun _ => false)
        (Main.push_new_stock_info (fun _ => "") false 0 none
          (fun _ => false) []).fs).success = true) :=
  c8_overall_status (fun _ => "") 0 none none (fun _ => false) [] (by decide)

end PushStock
